import Mathlib

/-!
Shallow embedding of src/main.py (DeepSolv backend, Flask + PyMongo).

The five Mongo collections (users, posts, follows, likes, comments) are
modelled as lists of records in insertion order; find_one is List.find?
on the query predicate, insert_one appends, delete_one removes the first
matching document, count_documents is the length of the filtered list.
Each request handler is a pure function from the store state (plus the
authenticated identity, the parsed JSON body and the value returned by
generate_uuid where the source uses them) to the new store state and a
response value; the response constructors mirror the jsonify bodies and
the attached HTTP status codes of the source.

Two runtime faults of the source are embedded faithfully:
line 6 of src/main.py does a from-import of the datetime CLASS, which has
no attribute timezone, so every evaluation of
datetime.now(datetime.timezone.utc) (lines 94, 142, 197, 233, 274) raises
AttributeError; and line 166 subscripts the result of the publisher
lookup without a None check, raising TypeError when the publisher is
absent. A raised exception aborts the handler before any later store
write; Flask converts it to a generic 500 response, which the crash
constructors (status 500) model.
-/

/-- A document of the users collection (src/main.py lines 88 to 95). -/
structure User where
  user_id : String
  username : String
  github_id : Nat
  profile_picture : Option String
  created_at : Nat
deriving Repr, DecidableEq

/-- A document of the posts collection (src/main.py lines 136 to 144). -/
structure Post where
  post_id : String
  caption : String
  image_url : String
  music_url : Option String
  category : Option String
  datetime_posted : Nat
  publisher_id : String
deriving Repr, DecidableEq

/-- A document of the follows collection (src/main.py lines 194 to 198). -/
structure Follow where
  follower_id : String
  following_id : String
  followed_at : Nat
deriving Repr, DecidableEq

/-- A document of the likes collection (src/main.py lines 230 to 234). -/
structure Like where
  post_id : String
  user_id : String
  liked_at : Nat
deriving Repr, DecidableEq

/-- A document of the comments collection (src/main.py lines 269 to 275). -/
structure Comment where
  comment_id : String
  post_id : String
  user_id : String
  comment : String
  commented_at : Nat
deriving Repr, DecidableEq

/-- The document store: the five collections of src/main.py lines 33 to 37,
each a list in insertion order. -/
structure DB where
  users : List User
  posts : List Post
  follows : List Follow
  likes : List Like
  comments : List Comment
deriving Repr, DecidableEq

/-- A Python exception escaping a handler. -/
inductive PyError where
  | attributeError (msg : String)
  | typeError (msg : String)
deriving Repr, DecidableEq

/-- The AttributeError raised by datetime.timezone: src/main.py line 6 binds
the name datetime to the datetime CLASS (from datetime import datetime), and
the class has no attribute timezone. -/
def datetimeAttrError : PyError :=
  PyError.attributeError ("type object datetime has no attribute timezone")

/-- The TypeError raised by subscripting None (publisher lookup miss at
src/main.py line 166). -/
def noneSubscriptError : PyError :=
  PyError.typeError ("NoneType object is not subscriptable")

/-- Evaluation of the expression datetime.now(datetime.timezone.utc) as the
source runs it (src/main.py lines 94, 142, 197, 233, 274): it raises
AttributeError before producing any timestamp, because the attribute access
datetime.timezone fails on the class. -/
def datetime_now_utc : Except PyError Nat :=
  Except.error datetimeAttrError

/-- A parsed JSON request body: association list from field name to string
value, in document order. -/
abbrev ReqData := List (String × String)

/-- Python membership test (field in data) on the parsed body. -/
def hasField (data : ReqData) (field : String) : Bool :=
  data.any (fun kv => kv.1 == field)

/-- Python data.get(key): the first value bound to the key, if any. -/
def dataLookup (data : ReqData) (key : String) : Option String :=
  (data.find? (fun kv => kv.1 == key)).map (fun kv => kv.2)

/-- src/main.py lines 45 to 49 (validate_request): collects the required
fields missing from the body; on a miss returns false and the error body
value, listing the missing fields joined by a comma. -/
def validate_request (required_fields : List String) (data : ReqData) :
    Bool × Option String :=
  let missing_fields := required_fields.filter (fun field => ! hasField data field)
  if missing_fields.isEmpty then (true, none)
  else (false, some (("Missing fields: ") ++ String.intercalate (", ") missing_fields))

/-- One store access, for tracing which collections a handler touches. -/
inductive StoreAccess where
  | readUsers
  | readPosts
deriving Repr, DecidableEq

/-- Response of GET /user/profile, including the 401 produced by the
jwt_required decorator before the handler body runs. -/
inductive ProfileResp where
  | unauthorized (error : String)
  | notFound (error : String)
  | ok (username : String) (profile_picture : Option String) (posts : List Post)
deriving Repr, DecidableEq

/-- HTTP status of a GET /user/profile response (src/main.py line 110 and
the Flask default 200; 401 from flask_jwt_extended). -/
def ProfileResp.status : ProfileResp → Nat
  | ProfileResp.unauthorized _ => 401
  | ProfileResp.notFound _ => 404
  | ProfileResp.ok _ _ _ => 200

/-- src/main.py lines 103 to 121 (get_profile) wrapped by jwt_required: auth
is the identity resolved from the bearer token, none when the token is
missing or invalid, in which case flask_jwt_extended rejects the request
with 401 before the handler body runs. The second component is the trace of
collections read. -/
def get_profile (auth : Option String) (db : DB) : ProfileResp × List StoreAccess :=
  match auth with
  | none => (ProfileResp.unauthorized ("Missing Authorization Header"), [])
  | some user_id =>
    match db.users.find? (fun u => u.user_id == user_id) with
    | none => (ProfileResp.notFound ("User not found"), [StoreAccess.readUsers])
    | some user =>
      (ProfileResp.ok user.username user.profile_picture
        (db.posts.filter (fun p => p.publisher_id == user_id)),
       [StoreAccess.readUsers, StoreAccess.readPosts])

/-- Response of POST /post. -/
inductive CreatePostResp where
  | badRequest (error : String)
  | created (message : String) (post_id : String)
  | crash (e : PyError)
deriving Repr, DecidableEq

/-- HTTP status of a POST /post response (src/main.py lines 133 and 147;
500 for an unhandled exception). -/
def CreatePostResp.status : CreatePostResp → Nat
  | CreatePostResp.badRequest _ => 400
  | CreatePostResp.created _ _ => 201
  | CreatePostResp.crash _ => 500

/-- src/main.py lines 124 to 147 (create_post). user_id is the JWT identity,
new_post_id the value of generate_uuid() at line 135. The dict literal at
lines 136 to 144 evaluates datetime.now(datetime.timezone.utc) before
insert_one runs, so the AttributeError aborts the handler with no write. -/
def create_post (db : DB) (user_id : String) (data : ReqData)
    (new_post_id : String) : DB × CreatePostResp :=
  let v := validate_request [("caption"), ("image_url")] data
  if ! v.1 then (db, CreatePostResp.badRequest (v.2.getD ("")))
  else
    match datetime_now_utc with
    | Except.error e => (db, CreatePostResp.crash e)
    | Except.ok now =>
      let post : Post :=
        { post_id := new_post_id,
          caption := (dataLookup data ("caption")).getD (""),
          image_url := (dataLookup data ("image_url")).getD (""),
          music_url := dataLookup data ("music_url"),
          category := dataLookup data ("category"),
          datetime_posted := now,
          publisher_id := user_id }
      ({ db with posts := db.posts ++ [post] },
       CreatePostResp.created ("Post created successfully") new_post_id)

/-- The publisher object inside a GET /post response (src/main.py lines 165
to 168). -/
structure PublisherSummary where
  username : String
  profile_picture : Option String
deriving Repr, DecidableEq

/-- Body of a successful GET /post response (src/main.py lines 159 to 171). -/
structure PostDetails where
  caption : String
  image_url : String
  music_url : Option String
  category : Option String
  datetime_posted : Nat
  publisher : PublisherSummary
  likes_count : Nat
  comments_count : Nat
deriving Repr, DecidableEq

/-- Response of GET /post/post_id. -/
inductive GetPostResp where
  | notFound (error : String)
  | ok (details : PostDetails)
  | crash (e : PyError)
deriving Repr, DecidableEq

/-- HTTP status of a GET /post response (src/main.py lines 154 and 172; 500
for an unhandled exception). -/
def GetPostResp.status : GetPostResp → Nat
  | GetPostResp.notFound _ => 404
  | GetPostResp.ok _ => 200
  | GetPostResp.crash _ => 500

/-- The like count of a post: likes.count_documents on the post id
(src/main.py line 169). -/
def likes_count (db : DB) (post_id : String) : Nat :=
  (db.likes.filter (fun l => l.post_id == post_id)).length

/-- The comment count of a post: comments.count_documents on the post id
(src/main.py line 170). -/
def comments_count (db : DB) (post_id : String) : Nat :=
  (db.comments.filter (fun c => c.post_id == post_id)).length

/-- src/main.py lines 150 to 172 (get_post_details). The publisher lookup at
line 157 has no None check: when the publisher is absent, line 166 evaluates
a subscript of None and raises TypeError. -/
def get_post_details (db : DB) (post_id : String) : GetPostResp :=
  match db.posts.find? (fun p => p.post_id == post_id) with
  | none => GetPostResp.notFound ("Post not found")
  | some post =>
    match db.users.find? (fun u => u.user_id == post.publisher_id) with
    | none => GetPostResp.crash noneSubscriptError
    | some publisher =>
      GetPostResp.ok
        { caption := post.caption,
          image_url := post.image_url,
          music_url := post.music_url,
          category := post.category,
          datetime_posted := post.datetime_posted,
          publisher :=
            { username := publisher.username,
              profile_picture := publisher.profile_picture },
          likes_count := likes_count db post_id,
          comments_count := comments_count db post_id }

/-- Response of POST /follow. -/
inductive FollowResp where
  | badRequest (error : String)
  | notFound (error : String)
  | message (m : String)
  | crash (e : PyError)
deriving Repr, DecidableEq

/-- HTTP status of a POST /follow response (src/main.py lines 184, 189 and
the Flask default 200; 500 for an unhandled exception). -/
def FollowResp.status : FollowResp → Nat
  | FollowResp.badRequest _ => 400
  | FollowResp.notFound _ => 404
  | FollowResp.message _ => 200
  | FollowResp.crash _ => 500

/-- src/main.py lines 175 to 199 (follow_user). The insert at lines 194 to
198 evaluates datetime.now(datetime.timezone.utc) inside the document
literal, so the AttributeError aborts the handler before the edge is
written. -/
def follow_user (db : DB) (user_id : String) (data : ReqData) : DB × FollowResp :=
  let v := validate_request [("follow_user_id")] data
  if ! v.1 then (db, FollowResp.badRequest (v.2.getD ("")))
  else
    let follow_user_id := (dataLookup data ("follow_user_id")).getD ("")
    if (db.users.find? (fun u => u.user_id == follow_user_id)).isNone then
      (db, FollowResp.notFound ("User to follow does not exist"))
    else if (db.follows.find? (fun f =>
        f.follower_id == user_id && f.following_id == follow_user_id)).isSome then
      (db, FollowResp.message ("Already following"))
    else
      match datetime_now_utc with
      | Except.error e => (db, FollowResp.crash e)
      | Except.ok now =>
        ({ db with follows := db.follows ++
            [{ follower_id := user_id, following_id := follow_user_id,
               followed_at := now }] },
         FollowResp.message ("Successfully followed"))

/-- The following ids computed at src/main.py lines 206 to 207: the
following_id of every follows document whose follower_id is the caller. -/
def following_ids (db : DB) (user_id : String) : List String :=
  (db.follows.filter (fun f => f.follower_id == user_id)).map Follow.following_id

/-- The comparison used by the feed sort (sort by datetime_posted
descending, src/main.py line 209). -/
def feedLE (a b : Post) : Bool :=
  decide (b.datetime_posted ≤ a.datetime_posted)

/-- src/main.py lines 202 to 216 (get_feed): the posts whose publisher_id is
among the ids the caller follows, sorted by datetime_posted descending. -/
def get_feed (db : DB) (user_id : String) : List Post :=
  (db.posts.filter
    (fun p => (following_ids db user_id).contains p.publisher_id)).mergeSort feedLE

/-- Response of POST or DELETE /post/post_id/like. -/
inductive LikeResp where
  | notFound (error : String)
  | message (m : String)
  | crash (e : PyError)
deriving Repr, DecidableEq

/-- HTTP status of a like or unlike response (src/main.py lines 225, 244 and
the Flask default 200; 500 for an unhandled exception). -/
def LikeResp.status : LikeResp → Nat
  | LikeResp.notFound _ => 404
  | LikeResp.message _ => 200
  | LikeResp.crash _ => 500

/-- src/main.py lines 219 to 235 (like_post). The insert at lines 230 to 234
evaluates datetime.now(datetime.timezone.utc) inside the document literal,
so the AttributeError aborts the handler before the like is written. -/
def like_post (db : DB) (user_id : String) (post_id : String) : DB × LikeResp :=
  if (db.posts.find? (fun p => p.post_id == post_id)).isNone then
    (db, LikeResp.notFound ("Post not found"))
  else if (db.likes.find? (fun l =>
      l.post_id == post_id && l.user_id == user_id)).isSome then
    (db, LikeResp.message ("Post already liked"))
  else
    match datetime_now_utc with
    | Except.error e => (db, LikeResp.crash e)
    | Except.ok now =>
      ({ db with likes := db.likes ++
          [{ post_id := post_id, user_id := user_id, liked_at := now }] },
       LikeResp.message ("Post liked successfully"))

/-- src/main.py lines 238 to 251 (unlike_post): 404 when the post is absent;
success and no write when the caller has no like; otherwise delete_one
removes the first matching like document. This handler builds no timestamp,
so it cannot raise. -/
def unlike_post (db : DB) (user_id : String) (post_id : String) : DB × LikeResp :=
  if (db.posts.find? (fun p => p.post_id == post_id)).isNone then
    (db, LikeResp.notFound ("Post not found"))
  else
    match db.likes.find? (fun l => l.post_id == post_id && l.user_id == user_id) with
    | none => (db, LikeResp.message ("Post not liked yet"))
    | some _ =>
      ({ db with likes :=
          db.likes.eraseP (fun l => l.post_id == post_id && l.user_id == user_id) },
       LikeResp.message ("Post unliked successfully"))

/-- Response of POST /post/post_id/comment. -/
inductive CommentResp where
  | badRequest (error : String)
  | notFound (error : String)
  | added (message : String) (comment_id : String)
  | crash (e : PyError)
deriving Repr, DecidableEq

/-- HTTP status of an add-comment response (src/main.py lines 263, 266 and
the Flask default 200; 500 for an unhandled exception). -/
def CommentResp.status : CommentResp → Nat
  | CommentResp.badRequest _ => 400
  | CommentResp.notFound _ => 404
  | CommentResp.added _ _ => 200
  | CommentResp.crash _ => 500

/-- src/main.py lines 254 to 277 (add_comment). Validation of the comment
field (lines 260 to 263) runs before the post existence check (lines 265 to
266). The insert evaluates datetime.now(datetime.timezone.utc), so a request
that reaches it raises AttributeError before the comment is written. -/
def add_comment (db : DB) (user_id : String) (post_id : String) (data : ReqData)
    (new_comment_id : String) : DB × CommentResp :=
  let v := validate_request [("comment")] data
  if ! v.1 then (db, CommentResp.badRequest (v.2.getD ("")))
  else if (db.posts.find? (fun p => p.post_id == post_id)).isNone then
    (db, CommentResp.notFound ("Post not found"))
  else
    match datetime_now_utc with
    | Except.error e => (db, CommentResp.crash e)
    | Except.ok now =>
      ({ db with comments := db.comments ++
          [{ comment_id := new_comment_id, post_id := post_id, user_id := user_id,
             comment := (dataLookup data ("comment")).getD (""),
             commented_at := now }] },
       CommentResp.added ("Comment added successfully") new_comment_id)

/-! Concrete store states used to instantiate the theorems below. -/

/-- A user present in the directory. -/
def aliceU : User :=
  { user_id := "u1", username := "alice", github_id := 1,
    profile_picture := none, created_at := 0 }

/-- A second user present in the directory. -/
def bobU : User :=
  { user_id := "u2", username := "bob", github_id := 2,
    profile_picture := none, created_at := 0 }

/-- A post whose publisher id resolves to no user in the directory. -/
def ghostPost : Post :=
  { post_id := "p1", caption := "c", image_url := "i", music_url := none,
    category := none, datetime_posted := 0, publisher_id := "ghost" }

/-- A store holding one user and one post with a dangling publisher id. -/
def ghostDB : DB :=
  { users := [aliceU], posts := [ghostPost], follows := [], likes := [],
    comments := [] }

/-- A store holding two users and nothing else. -/
def twoUsersDB : DB :=
  { users := [aliceU, bobU], posts := [], follows := [], likes := [],
    comments := [] }

/-- A like by aliceU on the post of ghostDB. -/
def aliceLike : Like :=
  { post_id := "p1", user_id := "u1", liked_at := 5 }

/-- ghostDB with one like by aliceU on its post. -/
def likedDB : DB :=
  { users := [aliceU], posts := [ghostPost], follows := [], likes := [aliceLike],
    comments := [] }

/-! Helper lemmas shared by the claim theorems. -/

/-- A list whose find? misses has countP zero. -/
theorem countP_eq_zero_of_find?_eq_none {α : Type} (p : α → Bool) (l : List α)
    (h : l.find? p = none) : l.countP p = 0 :=
  List.countP_eq_zero.mpr (List.find?_eq_none.mp h)

/-- eraseP removes exactly one matching element when a match exists. -/
theorem countP_eraseP_sub_one {α : Type} (p : α → Bool) (l : List α)
    (h : (l.find? p).isSome = true) :
    (l.eraseP p).countP p = l.countP p - 1 := by
  induction l with
  | nil => simp at h
  | cons a t ih =>
    by_cases hpa : p a = true
    · simp [List.eraseP_cons, hpa, List.countP_cons]
    · have hpa' : p a = false := by
        simpa using hpa
      have ht : (t.find? p).isSome = true := by
        rw [List.find?_cons_of_neg t hpa] at h
        exact h
      simp [List.eraseP_cons, hpa', List.countP_cons, ih ht]

/-- On a body holding both required fields, validate_request for create_post
reports no missing field. -/
theorem validate_request_caption_image_ok (data : ReqData)
    (hc : hasField data ("caption") = true)
    (hi : hasField data ("image_url") = true) :
    validate_request [("caption"), ("image_url")] data = (true, none) := by
  simp [validate_request, hc, hi]

/-- A valid create_post request reaches the timestamp expression and the
handler aborts with the AttributeError, writing nothing. -/
theorem create_post_crash_of_valid (db : DB) (user_id : String) (data : ReqData)
    (pid : String) (hc : hasField data ("caption") = true)
    (hi : hasField data ("image_url") = true) :
    create_post db user_id data pid = (db, CreatePostResp.crash datetimeAttrError) := by
  simp [create_post, validate_request_caption_image_ok data hc hi, datetime_now_utc]

/-! Claim theorems. -/

/-- C1: for a stored post whose publisher_id resolves to no user in the
users collection, GET /post/post_id does NOT handle the publisher lookup
miss: line 166 of src/main.py subscripts None, so the handler raises
TypeError (surfaced by Flask as a generic 500). This settles the claim as a
code bug: the spec requires the miss to be handled without a raw fault. -/
theorem c1_get_post_details_crash (db : DB) (pid : String) (post : Post)
    (hp : db.posts.find? (fun p => p.post_id == pid) = some post)
    (hu : db.users.find? (fun u => u.user_id == post.publisher_id) = none) :
    get_post_details db pid = GetPostResp.crash noneSubscriptError ∧
    (get_post_details db pid).status = 500 := by
  have h : get_post_details db pid = GetPostResp.crash noneSubscriptError := by
    simp [get_post_details, hp, hu]
  exact ⟨h, by rw [h]; rfl⟩

/-- Witness for C1: the concrete store ghostDB holds post p1 with dangling
publisher id ghost, and the detail request for p1 crashes. -/
theorem c1_get_post_details_crash_witness :
    get_post_details ghostDB ("p1") = GetPostResp.crash noneSubscriptError ∧
    (get_post_details ghostDB ("p1")).status = 500 :=
  c1_get_post_details_crash ghostDB ("p1") ghostPost (by decide) (by decide)

/-- C2: an authenticated POST /post whose body holds both caption and
image_url does NOT succeed with 201: the document literal evaluates
datetime.now(datetime.timezone.utc), which raises AttributeError (the name
datetime is the class, imported at line 6), so the handler aborts with a
500 and inserts nothing. This settles the claim as a code bug. -/
theorem c2_create_post_crashes (db : DB) (user_id : String) (data : ReqData)
    (pid : String) (hc : hasField data ("caption") = true)
    (hi : hasField data ("image_url") = true) :
    create_post db user_id data pid = (db, CreatePostResp.crash datetimeAttrError) ∧
    (create_post db user_id data pid).2.status = 500 := by
  have h := create_post_crash_of_valid db user_id data pid hc hi
  exact ⟨h, by rw [h]; rfl⟩

/-- Witness for C2: a concrete valid create-post request on ghostDB crashes
and leaves the store unchanged. -/
theorem c2_create_post_crashes_witness :
    create_post ghostDB ("u1") [(("caption"), ("x")), (("image_url"), ("y"))] ("p7") =
      (ghostDB, CreatePostResp.crash datetimeAttrError) ∧
    (create_post ghostDB ("u1")
        [(("caption"), ("x")), (("image_url"), ("y"))] ("p7")).2.status = 500 :=
  c2_create_post_crashes ghostDB ("u1")
    [(("caption"), ("x")), (("image_url"), ("y"))] ("p7") (by decide) (by decide)

/-- C6: the create-then-get round trip never returns the supplied fields,
because create_post aborts with the AttributeError before inserting: the
store is unchanged and a fresh post id is afterwards not found (404). This
settles the claim as a code bug. -/
theorem c6_roundtrip_broken (db : DB) (u : String) (data : ReqData) (pid : String)
    (hc : hasField data ("caption") = true)
    (hi : hasField data ("image_url") = true)
    (hfresh : db.posts.find? (fun p => p.post_id == pid) = none) :
    (create_post db u data pid).2 = CreatePostResp.crash datetimeAttrError ∧
    get_post_details (create_post db u data pid).1 pid =
      GetPostResp.notFound ("Post not found") := by
  have h := create_post_crash_of_valid db u data pid hc hi
  refine ⟨by rw [h], ?_⟩
  rw [h]
  simp [get_post_details, hfresh]

/-- Witness for C6: a concrete valid create on ghostDB with the fresh post
id p9, followed by the detail request for p9. -/
theorem c6_roundtrip_broken_witness :
    (create_post ghostDB ("u1")
        [(("caption"), ("cc")), (("image_url"), ("ii"))] ("p9")).2 =
      CreatePostResp.crash datetimeAttrError ∧
    get_post_details
        (create_post ghostDB ("u1")
          [(("caption"), ("cc")), (("image_url"), ("ii"))] ("p9")).1 ("p9") =
      GetPostResp.notFound ("Post not found") :=
  c6_roundtrip_broken ghostDB ("u1")
    [(("caption"), ("cc")), (("image_url"), ("ii"))] ("p9")
    (by decide) (by decide) (by decide)

/-- C9: a request to GET /user/profile without a valid bearer token is
answered 401 by the jwt_required decorator before the handler body runs:
the response is the unauthorized one, its status is 401, and the trace of
store accesses is empty. -/
theorem c9_profile_unauthenticated_no_store_access (db : DB) :
    (get_profile none db).1 =
      ProfileResp.unauthorized ("Missing Authorization Header") ∧
    (get_profile none db).1.status = 401 ∧
    (get_profile none db).2 = [] :=
  ⟨rfl, rfl, rfl⟩

/-- A follow request for an existing target with no prior edge reaches the
timestamp expression and aborts with the AttributeError, writing nothing. -/
theorem follow_user_crash_of_new (db : DB) (u t : String)
    (ht : (db.users.find? (fun x => x.user_id == t)).isSome = true)
    (hn : db.follows.find? (fun f => f.follower_id == u && f.following_id == t) = none) :
    follow_user db u [(("follow_user_id"), t)] = (db, FollowResp.crash datetimeAttrError) := by
  obtain ⟨w, hw⟩ := Option.isSome_iff_exists.mp ht
  have hv : validate_request [("follow_user_id")] [(("follow_user_id"), t)] = (true, none) := by
    simp [validate_request, hasField]
  have hd : dataLookup [(("follow_user_id"), t)] ("follow_user_id") = some t := by
    simp [dataLookup]
  simp [follow_user, hv, hd, hw, hn, datetime_now_utc]

/-- C4: the follow operation is NOT observably idempotent in the stored
sense the spec states, because no follow is ever stored: with the target
existing and no prior edge, the insert at lines 194 to 198 evaluates
datetime.now(datetime.timezone.utc) and raises AttributeError, so both the
first and the second invocation crash with a 500 and the pair has zero
stored edges afterwards, where the claim expects exactly one edge and a
success message on the second call. This settles the claim as a code bug. -/
theorem c4_follow_twice_crashes (db : DB) (u t : String)
    (ht : (db.users.find? (fun x => x.user_id == t)).isSome = true)
    (hn : db.follows.find? (fun f => f.follower_id == u && f.following_id == t) = none) :
    follow_user db u [(("follow_user_id"), t)] = (db, FollowResp.crash datetimeAttrError) ∧
    follow_user (follow_user db u [(("follow_user_id"), t)]).1 u [(("follow_user_id"), t)] =
      (db, FollowResp.crash datetimeAttrError) ∧
    (follow_user (follow_user db u [(("follow_user_id"), t)]).1 u
        [(("follow_user_id"), t)]).1.follows.countP
      (fun f => f.follower_id == u && f.following_id == t) = 0 := by
  have h1 := follow_user_crash_of_new db u t ht hn
  refine ⟨h1, ?_, ?_⟩
  · rw [h1]
    exact h1
  · rw [h1, h1]
    exact countP_eq_zero_of_find?_eq_none _ _ hn

/-- Witness for C4: aliceU follows bobU twice on the concrete store
twoUsersDB, where bobU exists and no edge is stored. -/
theorem c4_follow_twice_crashes_witness :
    follow_user twoUsersDB ("u1") [(("follow_user_id"), ("u2"))] =
      (twoUsersDB, FollowResp.crash datetimeAttrError) ∧
    follow_user (follow_user twoUsersDB ("u1") [(("follow_user_id"), ("u2"))]).1 ("u1")
        [(("follow_user_id"), ("u2"))] =
      (twoUsersDB, FollowResp.crash datetimeAttrError) ∧
    (follow_user (follow_user twoUsersDB ("u1") [(("follow_user_id"), ("u2"))]).1 ("u1")
        [(("follow_user_id"), ("u2"))]).1.follows.countP
      (fun f => f.follower_id == ("u1") && f.following_id == ("u2")) = 0 :=
  c4_follow_twice_crashes twoUsersDB ("u1") ("u2") (by decide) (by decide)

/-- A like request for an existing post not yet liked by the caller reaches
the timestamp expression and aborts with the AttributeError, writing
nothing. -/
theorem like_post_crash_of_new (db : DB) (u pid : String)
    (hp : (db.posts.find? (fun p => p.post_id == pid)).isSome = true)
    (hn : db.likes.find? (fun l => l.post_id == pid && l.user_id == u) = none) :
    like_post db u pid = (db, LikeResp.crash datetimeAttrError) := by
  obtain ⟨w, hw⟩ := Option.isSome_iff_exists.mp hp
  simp [like_post, hw, hn, datetime_now_utc]

/-- C5: liking an existing, so far unliked post never stores the like: the
insert at lines 230 to 234 evaluates datetime.now(datetime.timezone.utc)
and raises AttributeError, so the first call crashes with a 500 and writes
nothing, the second call crashes the same way instead of answering that
the post is already liked, and the like count of the post stays 0 where
the claim expects 1. This settles the claim as a code bug. -/
theorem c5_like_twice_crashes (db : DB) (u pid : String)
    (hp : (db.posts.find? (fun p => p.post_id == pid)).isSome = true)
    (hz : likes_count db pid = 0) :
    like_post db u pid = (db, LikeResp.crash datetimeAttrError) ∧
    like_post (like_post db u pid).1 u pid = (db, LikeResp.crash datetimeAttrError) ∧
    likes_count (like_post (like_post db u pid).1 u pid).1 pid = 0 := by
  have hnil : db.likes.filter (fun l => l.post_id == pid) = [] :=
    List.length_eq_zero.mp hz
  have hall := List.filter_eq_nil_iff.mp hnil
  have hn : db.likes.find? (fun l => l.post_id == pid && l.user_id == u) = none := by
    refine List.find?_eq_none.mpr (fun l hl => ?_)
    intro hcontra
    rw [Bool.and_eq_true] at hcontra
    exact hall l hl hcontra.1
  have h1 := like_post_crash_of_new db u pid hp hn
  refine ⟨h1, ?_, ?_⟩
  · rw [h1]
    exact h1
  · rw [h1, h1]
    exact hz

/-- Witness for C5: aliceU likes post p1 of ghostDB twice; the post exists
and has no likes. -/
theorem c5_like_twice_crashes_witness :
    like_post ghostDB ("u1") ("p1") = (ghostDB, LikeResp.crash datetimeAttrError) ∧
    like_post (like_post ghostDB ("u1") ("p1")).1 ("u1") ("p1") =
      (ghostDB, LikeResp.crash datetimeAttrError) ∧
    likes_count (like_post (like_post ghostDB ("u1") ("p1")).1 ("u1") ("p1")).1 ("p1") = 0 :=
  c5_like_twice_crashes ghostDB ("u1") ("p1") (by decide) (by decide)

/-- C7: DELETE /post/post_id/like behaves as specified: an absent post gets
404; an existing post the caller has not liked gets a success message with
the likes collection unchanged; an existing like is removed by delete_one
(the first matching document disappears, so the count of matching like
documents drops by one) with the success message. -/
theorem c7_unlike_post_correct (db : DB) (u : String) (pid : String) :
    (db.posts.find? (fun p => p.post_id == pid) = none →
      unlike_post db u pid = (db, LikeResp.notFound ("Post not found")) ∧
      (unlike_post db u pid).2.status = 404) ∧
    ((db.posts.find? (fun p => p.post_id == pid)).isSome = true →
      db.likes.find? (fun l => l.post_id == pid && l.user_id == u) = none →
      unlike_post db u pid = (db, LikeResp.message ("Post not liked yet"))) ∧
    ((db.posts.find? (fun p => p.post_id == pid)).isSome = true →
      (db.likes.find? (fun l => l.post_id == pid && l.user_id == u)).isSome = true →
      (unlike_post db u pid).1.likes =
        db.likes.eraseP (fun l => l.post_id == pid && l.user_id == u) ∧
      (unlike_post db u pid).1.likes.countP
          (fun l => l.post_id == pid && l.user_id == u) =
        db.likes.countP (fun l => l.post_id == pid && l.user_id == u) - 1 ∧
      (unlike_post db u pid).2 = LikeResp.message ("Post unliked successfully")) := by
  refine ⟨?_, ?_, ?_⟩
  · intro hnone
    have h : unlike_post db u pid = (db, LikeResp.notFound ("Post not found")) := by
      simp [unlike_post, hnone]
    exact ⟨h, by rw [h]; rfl⟩
  · intro hp hl
    obtain ⟨w, hw⟩ := Option.isSome_iff_exists.mp hp
    simp [unlike_post, hw, hl]
  · intro hp hl
    obtain ⟨w, hw⟩ := Option.isSome_iff_exists.mp hp
    obtain ⟨lk, hlk⟩ := Option.isSome_iff_exists.mp hl
    have h : unlike_post db u pid =
        ({ db with likes :=
            db.likes.eraseP (fun l => l.post_id == pid && l.user_id == u) },
         LikeResp.message ("Post unliked successfully")) := by
      simp [unlike_post, hw, hlk]
    refine ⟨by rw [h], ?_, by rw [h]⟩
    rw [h]
    exact countP_eraseP_sub_one _ _ hl

/-- C8: a POST /post whose body omits caption is refused with 400, the
error message names the missing field (it is the text between the listed
prefix and suffix), and the store is unchanged, so no post is inserted. -/
theorem c8_create_post_missing_caption (db : DB) (u : String) (data : ReqData)
    (pid : String) (h : hasField data ("caption") = false) :
    (∃ pre post, create_post db u data pid =
        (db, CreatePostResp.badRequest (pre ++ ("caption") ++ post))) ∧
    (create_post db u data pid).2.status = 400 := by
  by_cases hi : hasField data ("image_url") = true
  · have hv : validate_request [("caption"), ("image_url")] data =
        (false, some (("Missing fields: ") ++ ("caption") ++ (""))) := by
      simp [validate_request, h, hi]
      decide
    refine ⟨⟨("Missing fields: "), (""), ?_⟩, ?_⟩
    · simp [create_post, hv]
    · simp [create_post, hv, CreatePostResp.status]
  · have hi' : hasField data ("image_url") = false := by
      simpa using hi
    have hv : validate_request [("caption"), ("image_url")] data =
        (false, some (("Missing fields: ") ++ ("caption") ++ (", image_url"))) := by
      simp [validate_request, h, hi']
      decide
    refine ⟨⟨("Missing fields: "), (", image_url"), ?_⟩, ?_⟩
    · simp [create_post, hv]
    · simp [create_post, hv, CreatePostResp.status]

/-- Witness for C8: a create-post body holding only image_url on the
concrete store ghostDB. -/
theorem c8_create_post_missing_caption_witness :
    (∃ pre post, create_post ghostDB ("u1") [(("image_url"), ("y"))] ("p8") =
        (ghostDB, CreatePostResp.badRequest (pre ++ ("caption") ++ post))) ∧
    (create_post ghostDB ("u1") [(("image_url"), ("y"))] ("p8")).2.status = 400 :=
  c8_create_post_missing_caption ghostDB ("u1") [(("image_url"), ("y"))] ("p8")
    (by decide)

/-- C10: in add_comment the comment field validation runs before the post
existence check, so a body without the comment field is refused with 400
naming the field even when the post id resolves to no post, and the 404
branch is never taken for such a request. -/
theorem c10_comment_validation_precedes_404 (db : DB) (u : String) (pid : String)
    (data : ReqData) (cid : String)
    (hmiss : hasField data ("comment") = false)
    (habsent : db.posts.find? (fun p => p.post_id == pid) = none) :
    add_comment db u pid data cid =
      (db, CommentResp.badRequest (("Missing fields: ") ++ ("comment"))) ∧
    (add_comment db u pid data cid).2.status = 400 := by
  have hv : validate_request [("comment")] data =
      (false, some (("Missing fields: ") ++ ("comment"))) := by
    simp [validate_request, hmiss]
    decide
  have h : add_comment db u pid data cid =
      (db, CommentResp.badRequest (("Missing fields: ") ++ ("comment"))) := by
    simp [add_comment, hv]
  exact ⟨h, by rw [h]; rfl⟩

/-- Witness for C10: an empty body and the post id p1 on the concrete store
twoUsersDB, which holds no posts at all. -/
theorem c10_comment_validation_precedes_404_witness :
    add_comment twoUsersDB ("u1") ("p1") [] ("c1") =
      (twoUsersDB, CommentResp.badRequest (("Missing fields: ") ++ ("comment"))) ∧
    (add_comment twoUsersDB ("u1") ("p1") [] ("c1")).2.status = 400 :=
  c10_comment_validation_precedes_404 twoUsersDB ("u1") ("p1") [] ("c1")
    (by decide) (by decide)

/-- C3: GET /feed returns exactly the stored posts whose publisher is among
the users the caller follows (a permutation of the filtered posts
collection, so the same posts with multiplicity), sorted by
datetime_posted descending, so a post never appears before a strictly
newer one; and when the caller follows nobody the feed is empty. -/
theorem c3_get_feed_correct (db : DB) (u : String) :
    (get_feed db u).Perm
      (db.posts.filter (fun p => (following_ids db u).contains p.publisher_id)) ∧
    (get_feed db u).Pairwise (fun a b => b.datetime_posted ≤ a.datetime_posted) ∧
    (db.follows.filter (fun f => f.follower_id == u) = [] → get_feed db u = []) := by
  refine ⟨List.mergeSort_perm _ _, ?_, ?_⟩
  · have htrans : ∀ a b c : Post,
        feedLE a b = true → feedLE b c = true → feedLE a c = true := by
      intro a b c hab hbc
      simp only [feedLE, decide_eq_true_eq] at hab hbc ⊢
      omega
    have htotal : ∀ a b : Post, (feedLE a b || feedLE b a) = true := by
      intro a b
      simp only [feedLE, Bool.or_eq_true, decide_eq_true_eq]
      omega
    have hs := List.sorted_mergeSort htrans htotal
      (db.posts.filter (fun p => (following_ids db u).contains p.publisher_id))
    refine List.Pairwise.imp ?_ hs
    intro a b hab
    simpa [feedLE] using hab
  · intro h
    simp [get_feed, following_ids, h]
